import Mathlib

/-!
Shallow embedding of
`ansible_collections/arista/cvp/plugins/module_utils/container_tools.py`.

The remote CloudVision client (`cvprac`) is modelled as a record of pure
functions (`CvpApi`): each API entry point either returns a value or raises,
which we model with `Except PyErr`.  Every embedded operation additionally
returns the ordered list of API calls it issued, so that properties about
which remote calls are made (dry-run behaviour, idempotence) can be stated.
`PyErr` covers the library error `CvpApiError` as well as the Python runtime
errors (`TypeError`, `KeyError`, `UnboundLocalError`) the code can raise.
Dictionaries returned by the API are modelled as structures carrying exactly
the fields the code reads, so `_standard_output` (which filters a dict down
to those standard keys) becomes the identity and is inlined.
-/

namespace CvCt

/-- Container record as returned by the registry lookups
(`get_container_by_name` / `filter_topology`), restricted by
`_standard_output` to the five standard fields. -/
structure ContainerRecord where
  key : String
  name : String
  childContainerCount : Nat
  childNetElementCount : Nat
  parentContainerId : String
  deriving DecidableEq

/-- Configlet record as returned by `get_configlet_by_name`, restricted by
`_standard_output`. -/
structure ConfigletRecord where
  key : String
  name : String
  deriving DecidableEq

/-- The `resp['data']` payload of a mutating API response. -/
structure RespData where
  status : String
  taskIds : List String
  deriving DecidableEq

/-- A mutating API response: the `data` key may be missing (`none`). -/
structure ApiResp where
  data : Option RespData
  deriving DecidableEq

/-- Python exceptions that can cross the embedded code. -/
inductive PyErr where
  | cvpApiError
  | typeError
  | keyError
  | unboundLocalError
  deriving DecidableEq

instance {ε α : Type} [DecidableEq ε] [DecidableEq α] : DecidableEq (Except ε α) :=
  fun a b =>
    match a, b with
    | Except.error e, Except.error f =>
        if h : e = f then isTrue (congrArg Except.error h)
        else isFalse (fun hh => h (Except.error.inj hh))
    | Except.error _, Except.ok _ => isFalse (fun hh => Except.noConfusion hh)
    | Except.ok _, Except.error _ => isFalse (fun hh => Except.noConfusion hh)
    | Except.ok x, Except.ok y =>
        if h : x = y then isTrue (congrArg Except.ok h)
        else isFalse (fun hh => h (Except.ok.inj hh))

/-- One remote API call, as recorded in an operation's call trace. -/
inductive ApiCall where
  | getContainerByName (name : String)
  | filterTopology (nodeId : String)
  | getConfigletByName (name : String)
  | addContainer (name parentKey parentName : String)
  | deleteContainer (name : String) (key parentKey : Option String) (parentName : String)
  | applyConfiglets (container : String) (configlets : List String)
  | removeConfiglets (container : String) (configlets : List String)
  deriving DecidableEq

/-- Whether a call mutates remote state (create/delete/attach/detach) as
opposed to a read-only lookup. -/
def ApiCall.isMutating : ApiCall → Bool
  | ApiCall.addContainer _ _ _ => true
  | ApiCall.deleteContainer _ _ _ _ => true
  | ApiCall.applyConfiglets _ _ => true
  | ApiCall.removeConfiglets _ _ => true
  | _ => false

/-- The remote client: one pure function per API entry point used by
`container_tools.py`.  `Except.error` models the call raising. -/
structure CvpApi where
  get_container_by_name : String → Except PyErr (Option ContainerRecord)
  filter_topology : String → Except PyErr ContainerRecord
  get_configlet_by_name : String → Except PyErr (Option ConfigletRecord)
  add_container : String → String → String → Except PyErr ApiResp
  delete_container : String → Option String → Option String → String → Except PyErr ApiResp
  apply_configlets_to_container : ContainerRecord → List ConfigletRecord → Except PyErr ApiResp
  remove_configlets_from_container : ContainerRecord → List ConfigletRecord → Except PyErr ApiResp

/-- Execution environment of `CvContainerTools`: the client plus the Ansible
check-mode (dry-run) flag. -/
structure Env where
  api : CvpApi
  check_mode : Bool

/-- Modelled from the spec: `CvApiResult` (the spec's ChangeResult) is
defined in `module_utils/response.py`, which is not among the given sources.
Spec section 3: "fields: target name, success flag, changed flag, list of
task identifiers returned by the remote system, and an optional count of
effected changes.  Lifecycle: constructed at the start of an operation,
populated based on the remote call's outcome".  Flags start unset (false,
empty, zero) at construction and are populated only where
`container_tools.py` assigns them. -/
structure CvApiResult where
  name : String
  success : Bool := false
  changed : Bool := false
  taskIds : List String := []
  count : Nat := 0
  deriving DecidableEq

/-- `CvContainerTools.get_container_info` (lines 296-333): look the container
up by name; if found (and carrying the `key` field, which every modelled
record does), look it up again for its id, then fetch the filtered topology
record.  Returns `none` when the name is unknown. -/
def get_container_info (env : Env) (container_name : String) :
    Except PyErr (Option ContainerRecord) × List ApiCall :=
  match env.api.get_container_by_name container_name with
  | Except.error e => (Except.error e, [ApiCall.getContainerByName container_name])
  | Except.ok none => (Except.ok none, [ApiCall.getContainerByName container_name])
  | Except.ok (some _) =>
      match env.api.get_container_by_name container_name with
      | Except.error e =>
          (Except.error e,
           [ApiCall.getContainerByName container_name, ApiCall.getContainerByName container_name])
      | Except.ok none =>
          (Except.error PyErr.typeError,
           [ApiCall.getContainerByName container_name, ApiCall.getContainerByName container_name])
      | Except.ok (some rec2) =>
          match env.api.filter_topology rec2.key with
          | Except.error e =>
              (Except.error e,
               [ApiCall.getContainerByName container_name,
                ApiCall.getContainerByName container_name, ApiCall.filterTopology rec2.key])
          | Except.ok facts =>
              (Except.ok (some facts),
               [ApiCall.getContainerByName container_name,
                ApiCall.getContainerByName container_name, ApiCall.filterTopology rec2.key])

/-- `CvContainerTools.get_container_id` (lines 335-357): `container_info` is
subscript-tested for `key` without a `None` check, so an unknown container
makes the membership test raise `TypeError`. -/
def get_container_id (env : Env) (container_name : String) :
    Except PyErr (Option String) × List ApiCall :=
  match env.api.get_container_by_name container_name with
  | Except.error e => (Except.error e, [ApiCall.getContainerByName container_name])
  | Except.ok none => (Except.error PyErr.typeError, [ApiCall.getContainerByName container_name])
  | Except.ok (some rec1) =>
      (Except.ok (some rec1.key), [ApiCall.getContainerByName container_name])

/-- `CvContainerTools.is_empty` (lines 363-386): membership test on the
result of `get_container_info`; when that is `None` the test raises
`TypeError`; otherwise true iff both child counts are zero. -/
def is_empty (env : Env) (container_name : String) : Except PyErr Bool × List ApiCall :=
  match get_container_info env container_name with
  | (Except.error e, t) => (Except.error e, t)
  | (Except.ok none, t) => (Except.error PyErr.typeError, t)
  | (Except.ok (some c), t) =>
      (Except.ok (c.childContainerCount == 0 && c.childNetElementCount == 0), t)

/-- `CvContainerTools.is_container_exists` (lines 388-413): the `except
CvpApiError` clause only logs, so when the lookup raises, `cv_data` is never
bound and the following `if cv_data is not None` raises
`UnboundLocalError`. -/
def is_container_exists (env : Env) (container_name : String) :
    Except PyErr Bool × List ApiCall :=
  match env.api.get_container_by_name container_name with
  | Except.error PyErr.cvpApiError =>
      (Except.error PyErr.unboundLocalError, [ApiCall.getContainerByName container_name])
  | Except.error e => (Except.error e, [ApiCall.getContainerByName container_name])
  | Except.ok v => (Except.ok v.isSome, [ApiCall.getContainerByName container_name])

/-- `CvContainerTools._get_configlet_info` (lines 144-169): lookup, then
`_standard_output` (identity here) when found. -/
def get_configlet_info (env : Env) (configlet_name : String) :
    Except PyErr (Option ConfigletRecord) × List ApiCall :=
  match env.api.get_configlet_by_name configlet_name with
  | Except.error e => (Except.error e, [ApiCall.getConfigletByName configlet_name])
  | Except.ok none => (Except.ok none, [ApiCall.getConfigletByName configlet_name])
  | Except.ok (some d) => (Except.ok (some d), [ApiCall.getConfigletByName configlet_name])

/-- `CvContainerTools._configlet_add` (lines 171-233): no-op result when the
container is `None` (the guard protecting check mode); in check mode report
success with a fake task id; otherwise issue the batched attach, absorbing
`CvpApiError` as a plain unsuccessful result. -/
def configlet_add (env : Env) (container : Option ContainerRecord)
    (configlets : List ConfigletRecord) : Except PyErr CvApiResult × List ApiCall :=
  match container with
  | none => (Except.ok { name := "Undefined" }, [])
  | some c =>
      let configlet_names := (configlets.filter (fun entry => entry.name != "")).map
        (fun entry => entry.name)
      let rname := c.name ++ ":" ++ String.intercalate ":" configlet_names
      if env.check_mode then
        (Except.ok { name := rname, success := true, taskIds := ["check_mode"] }, [])
      else
        match env.api.apply_configlets_to_container c configlets with
        | Except.error PyErr.cvpApiError =>
            (Except.ok { name := rname },
             [ApiCall.applyConfiglets c.name (configlets.map (fun entry => entry.name))])
        | Except.error e =>
            (Except.error e,
             [ApiCall.applyConfiglets c.name (configlets.map (fun entry => entry.name))])
        | Except.ok resp =>
            match resp.data with
            | some d =>
                if d.status == "success" then
                  (Except.ok { name := rname, success := true, taskIds := d.taskIds },
                   [ApiCall.applyConfiglets c.name (configlets.map (fun entry => entry.name))])
                else
                  (Except.ok { name := rname },
                   [ApiCall.applyConfiglets c.name (configlets.map (fun entry => entry.name))])
            | none =>
                (Except.ok { name := rname },
                 [ApiCall.applyConfiglets c.name (configlets.map (fun entry => entry.name))])

/-- `CvContainerTools._configlet_del` (lines 235-290): unlike
`_configlet_add` there is no `None` guard - the action name is built from
`container['name']` first, so a `None` container raises `TypeError`. -/
def configlet_del (env : Env) (container : Option ContainerRecord)
    (configlets : List ConfigletRecord) : Except PyErr CvApiResult × List ApiCall :=
  match container with
  | none => (Except.error PyErr.typeError, [])
  | some c =>
      let configlet_names := (configlets.filter (fun entry => entry.name != "")).map
        (fun entry => entry.name)
      let rname := c.name ++ ":" ++ String.intercalate ":" configlet_names
      if env.check_mode then
        (Except.ok { name := rname, success := true, taskIds := ["check_mode"] }, [])
      else
        match env.api.remove_configlets_from_container c configlets with
        | Except.error PyErr.cvpApiError =>
            (Except.ok { name := rname },
             [ApiCall.removeConfiglets c.name (configlets.map (fun entry => entry.name))])
        | Except.error e =>
            (Except.error e,
             [ApiCall.removeConfiglets c.name (configlets.map (fun entry => entry.name))])
        | Except.ok resp =>
            match resp.data with
            | some d =>
                if d.status == "success" then
                  (Except.ok { name := rname, success := true, taskIds := d.taskIds },
                   [ApiCall.removeConfiglets c.name (configlets.map (fun entry => entry.name))])
                else
                  (Except.ok { name := rname },
                   [ApiCall.removeConfiglets c.name (configlets.map (fun entry => entry.name))])
            | none =>
                (Except.ok { name := rname },
                 [ApiCall.removeConfiglets c.name (configlets.map (fun entry => entry.name))])

/-- `CvContainerTools.create_container` (lines 419-471): require the parent
to exist; subscript the parent lookup for its key; if the container does not
exist yet, in check mode report success and changed, otherwise issue the
create, absorbing `CvpApiError` and reading `resp['data']['status']`
(a missing `data` key raises `KeyError` in the un-protected `else` block).
The success branch sets `success` and `count` but never `changed`. -/
def create_container (env : Env) (container parent : String) :
    Except PyErr CvApiResult × List ApiCall :=
  match is_container_exists env parent with
  | (Except.error e, t) => (Except.error e, t)
  | (Except.ok false, t) => (Except.ok { name := container }, t)
  | (Except.ok true, t) =>
      match env.api.get_container_by_name parent with
      | Except.error e => (Except.error e, t ++ [ApiCall.getContainerByName parent])
      | Except.ok none =>
          (Except.error PyErr.typeError, t ++ [ApiCall.getContainerByName parent])
      | Except.ok (some prec) =>
          let t1 := t ++ [ApiCall.getContainerByName parent]
          match is_container_exists env container with
          | (Except.error e, t2) => (Except.error e, t1 ++ t2)
          | (Except.ok true, t2) => (Except.ok { name := container }, t1 ++ t2)
          | (Except.ok false, t2) =>
              let t3 := t1 ++ t2
              if env.check_mode then
                (Except.ok { name := container, success := true, changed := true }, t3)
              else
                match env.api.add_container container prec.key parent with
                | Except.error PyErr.cvpApiError =>
                    (Except.ok { name := container },
                     t3 ++ [ApiCall.addContainer container prec.key parent])
                | Except.error e =>
                    (Except.error e, t3 ++ [ApiCall.addContainer container prec.key parent])
                | Except.ok resp =>
                    match resp.data with
                    | none =>
                        (Except.error PyErr.keyError,
                         t3 ++ [ApiCall.addContainer container prec.key parent])
                    | some d =>
                        if d.status == "success" then
                          (Except.ok
                            { name := container, success := true, taskIds := d.taskIds,
                              count := 1 },
                           t3 ++ [ApiCall.addContainer container prec.key parent])
                        else
                          (Except.ok { name := container },
                           t3 ++ [ApiCall.addContainer container prec.key parent])

/-- `CvContainerTools.delete_container` (lines 473-524): `and`-guarded by
existence then emptiness (short-circuit); in check mode report success;
otherwise issue the delete, absorbing `CvpApiError` and reading
`resp['data']['status']` directly. -/
def delete_container (env : Env) (container parent : String) :
    Except PyErr CvApiResult × List ApiCall :=
  match is_container_exists env container with
  | (Except.error e, t) => (Except.error e, t)
  | (Except.ok false, t) => (Except.ok { name := container }, t)
  | (Except.ok true, t) =>
      match is_empty env container with
      | (Except.error e, t2) => (Except.error e, t ++ t2)
      | (Except.ok false, t2) => (Except.ok { name := container }, t ++ t2)
      | (Except.ok true, t2) =>
          match get_container_id env parent with
          | (Except.error e, t3) => (Except.error e, t ++ t2 ++ t3)
          | (Except.ok parent_id, t3) =>
              match get_container_id env container with
              | (Except.error e, t4) => (Except.error e, t ++ t2 ++ t3 ++ t4)
              | (Except.ok container_id, t4) =>
                  let tr := t ++ t2 ++ t3 ++ t4
                  if env.check_mode then
                    (Except.ok { name := container, success := true }, tr)
                  else
                    match env.api.delete_container container container_id parent_id parent with
                    | Except.error PyErr.cvpApiError =>
                        (Except.ok { name := container },
                         tr ++ [ApiCall.deleteContainer container container_id parent_id parent])
                    | Except.error e =>
                        (Except.error e,
                         tr ++ [ApiCall.deleteContainer container container_id parent_id parent])
                    | Except.ok resp =>
                        match resp.data with
                        | none =>
                            (Except.error PyErr.keyError,
                             tr ++ [ApiCall.deleteContainer container container_id parent_id parent])
                        | some d =>
                            if d.status == "success" then
                              (Except.ok
                                { name := container, success := true, taskIds := d.taskIds },
                               tr ++ [ApiCall.deleteContainer container container_id parent_id
                                 parent])
                            else
                              (Except.ok { name := container },
                               tr ++ [ApiCall.deleteContainer container container_id parent_id
                                 parent])

/-- The resolution loop of `configlets_attach` / `configlets_detach`
(lines 556-559 and 592-595): look each requested name up and keep only the
resolved records, dropping the unresolved names. -/
def resolve_configlets (env : Env) :
    List String → Except PyErr (List ConfigletRecord) × List ApiCall
  | [] => (Except.ok [], [])
  | c :: rest =>
      match get_configlet_info env c with
      | (Except.error e, t) => (Except.error e, t)
      | (Except.ok data, t) =>
          match resolve_configlets env rest with
          | (Except.error e, t2) => (Except.error e, t ++ t2)
          | (Except.ok tail, t2) =>
              match data with
              | some d => (Except.ok (d :: tail), t ++ t2)
              | none => (Except.ok tail, t ++ t2)

/-- `CvContainerTools.configlets_attach` (lines 526-560).  The unused
`strict` parameter is omitted (accepted but without effect in the source). -/
def configlets_attach (env : Env) (container : String) (configlets : List String) :
    Except PyErr CvApiResult × List ApiCall :=
  match get_container_info env container with
  | (Except.error e, t) => (Except.error e, t)
  | (Except.ok container_info, t) =>
      match resolve_configlets env configlets with
      | (Except.error e, t2) => (Except.error e, t ++ t2)
      | (Except.ok attach, t2) =>
          match configlet_add env container_info attach with
          | (r, t3) => (r, t ++ t2 ++ t3)

/-- `CvContainerTools.configlets_detach` (lines 562-596). -/
def configlets_detach (env : Env) (container : String) (configlets : List String) :
    Except PyErr CvApiResult × List ApiCall :=
  match get_container_info env container with
  | (Except.error e, t) => (Except.error e, t)
  | (Except.ok container_info, t) =>
      match resolve_configlets env configlets with
      | (Except.error e, t2) => (Except.error e, t ++ t2)
      | (Except.ok detach, t2) =>
          match configlet_del env container_info detach with
          | (r, t3) => (r, t ++ t2 ++ t3)

/-- One entry of the user topology: the value dict of `ContainerInput`'s
`_topology`, with the `parent_container` key always present and the
`configlets` key optional (`none` models a missing key). -/
structure ContainerSpec where
  parent_container : String
  configlets : Option (List String) := none
  deriving DecidableEq

/-- `ContainerInput` (lines 599-608): the user topology as an
insertion-ordered association list (a Python dict iterates its keys in
insertion order), plus the root sentinel name. -/
structure ContainerInput where
  topology : List (String × ContainerSpec)
  root_name : String := "Tenant"
  deriving DecidableEq

/-- One full `for container in self._topology` pass of
`ordered_list_containers` (lines 648-653), threading `result_list`: a
container whose parent is the root sentinel is appended unconditionally;
then a container whose parent is already in the (just updated) list is
appended when not itself present. -/
def order_pass (t : ContainerInput) (acc : List String) : List String :=
  t.topology.foldl
    (fun res entry =>
      let res1 := if entry.2.parent_container == t.root_name then res ++ [entry.1] else res
      if res1.any (fun element => element == entry.2.parent_container) &&
          !(res1.contains entry.1) then
        res1 ++ [entry.1]
      else res1)
    acc

/-- The `while(len(result_list) < len(self._topology))` loop of
`ordered_list_containers` (line 647), indexed by fuel: `none` means the fuel
ran out with the loop condition still true (the Python loop has not
terminated within that many passes). -/
def ordered_loop (t : ContainerInput) : Nat → List String → Option (List String)
  | 0, res => if res.length < t.topology.length then none else some res
  | Nat.succ n, res =>
      if res.length < t.topology.length then ordered_loop t n (order_pass t res)
      else some res

/-- `ContainerInput.ordered_list_containers` (lines 634-655), fuel-indexed:
`some l` is the list the Python property returns, reached after at most
`fuel` passes; `none` means the loop is still running after `fuel` passes. -/
def ordered_list_containers (t : ContainerInput) (fuel : Nat) : Option (List String) :=
  ordered_loop t fuel []

/-- `ContainerInput._get_container_data` (lines 610-632) at the `configlets`
key: `none` when the container is absent or the key missing. -/
def get_container_data_configlets (t : ContainerInput) (container_name : String) :
    Option (List String) :=
  match t.topology.find? (fun p => p.1 == container_name) with
  | some p => p.2.configlets
  | none => none

/-- `ContainerInput._get_container_data` (lines 610-632) at the
`parent_container` key, which every modelled entry carries. -/
def get_container_data_parent (t : ContainerInput) (container_name : String) :
    Option String :=
  match t.topology.find? (fun p => p.1 == container_name) with
  | some p => some p.2.parent_container
  | none => none

/-- `ContainerInput.get_parent` (lines 657-673) at the default key. -/
def get_parent (t : ContainerInput) (container_name : String) : Option String :=
  get_container_data_parent t container_name

/-- `ContainerInput.get_configlets` (lines 675-676) at the default key. -/
def get_configlets (t : ContainerInput) (container_name : String) : Option (List String) :=
  get_container_data_configlets t container_name

/-- `ContainerInput.has_configlets` (lines 678-681): false exactly when
`_get_container_data` returns `None`. -/
def has_configlets (t : ContainerInput) (container_name : String) : Bool :=
  match get_container_data_configlets t container_name with
  | none => false
  | some _ => true

/-- Sample registry record for the container `DCs` under the root. -/
def recDCs : ContainerRecord :=
  { key := "container_dcs", name := "DCs", childContainerCount := 0,
    childNetElementCount := 0, parentContainerId := "root" }

/-- Sample registry record for the container `DC2` under `DCs`. -/
def recDC2 : ContainerRecord :=
  { key := "container_dc2", name := "DC2", childContainerCount := 0,
    childNetElementCount := 0, parentContainerId := "container_dcs" }

/-- Sample registry record for the container `DC3` under `DCs`. -/
def recDC3 : ContainerRecord :=
  { key := "container_dc3", name := "DC3", childContainerCount := 0,
    childNetElementCount := 0, parentContainerId := "container_dcs" }

/-- Filtered-topology record of a container holding one attached device. -/
def ftNonEmpty : ContainerRecord :=
  { key := "container_dc2", name := "DC2", childContainerCount := 0,
    childNetElementCount := 1, parentContainerId := "container_dcs" }

/-- Sample configlet record. -/
def cfgA : ConfigletRecord := { key := "configlet_a", name := "cfgA" }

/-- Sample registry: containers `DCs` and `DC3` exist, configlet `cfgA`
resolves, every other name is unknown; mutating calls report success. -/
def apiStd : CvpApi :=
  { get_container_by_name := fun n =>
      if n == "DCs" then Except.ok (some recDCs)
      else if n == "DC3" then Except.ok (some recDC3)
      else Except.ok none
    filter_topology := fun i =>
      if i == "container_dc3" then Except.ok recDC3 else Except.ok recDCs
    get_configlet_by_name := fun n =>
      if n == "cfgA" then Except.ok (some cfgA) else Except.ok none
    add_container := fun _ _ _ =>
      Except.ok { data := some { status := "success", taskIds := ["task1"] } }
    delete_container := fun _ _ _ _ =>
      Except.ok { data := some { status := "success", taskIds := [] } }
    apply_configlets_to_container := fun _ _ =>
      Except.ok { data := some { status := "success", taskIds := ["task2"] } }
    remove_configlets_from_container := fun _ _ =>
      Except.ok { data := some { status := "success", taskIds := [] } } }

/-- The sample registry as it looks after `DC2` has been created. -/
def apiStdAfter : CvpApi :=
  { apiStd with get_container_by_name := fun n =>
      if n == "DC2" then Except.ok (some recDC2) else apiStd.get_container_by_name n }

/-- Sample registry where `DC2` exists but holds one attached device. -/
def apiNonEmpty : CvpApi :=
  { apiStd with
    get_container_by_name := fun n =>
      if n == "DC2" then Except.ok (some recDC2) else apiStd.get_container_by_name n
    filter_topology := fun _ => Except.ok ftNonEmpty }

/-- Sample registry whose container lookup always raises `CvpApiError`. -/
def apiRaising : CvpApi :=
  { apiStd with get_container_by_name := fun _ => Except.error PyErr.cvpApiError }

/-- Sample registry where every container lookup finds nothing. -/
def apiAbsent : CvpApi :=
  { apiStd with get_container_by_name := fun _ => Except.ok none }

/-- Well-formed topology listing each child before its parent: the order the
Python dict iterates in. -/
def topoChain : ContainerInput :=
  { topology := [("D", { parent_container := "C" }), ("C", { parent_container := "B" }),
                 ("B", { parent_container := "A" }), ("A", { parent_container := "Tenant" })],
    root_name := "Tenant" }

/-- Topology whose only container has a dangling parent reference. -/
def topoDangling : ContainerInput :=
  { topology := [("X", { parent_container := "Y" })], root_name := "Tenant" }

/-- Topology with one root container and one dangling parent reference. -/
def topoMixed : ContainerInput :=
  { topology := [("A", { parent_container := "Tenant" }), ("X", { parent_container := "Q" })],
    root_name := "Tenant" }

/-- Topology whose container carries an empty configlet list. -/
def topoCfg : ContainerInput :=
  { topology := [("A", { parent_container := "Tenant", configlets := some [] })],
    root_name := "Tenant" }

theorem is_container_exists_ok (env : Env) (n : String) (v : Option ContainerRecord)
    (h : env.api.get_container_by_name n = Except.ok v) :
    is_container_exists env n = (Except.ok v.isSome, [ApiCall.getContainerByName n]) := by
  simp [is_container_exists, h]

theorem get_container_info_absent (env : Env) (n : String)
    (h : env.api.get_container_by_name n = Except.ok none) :
    get_container_info env n = (Except.ok none, [ApiCall.getContainerByName n]) := by
  simp [get_container_info, h]

theorem get_container_info_found (env : Env) (n : String) (r ft : ContainerRecord)
    (h : env.api.get_container_by_name n = Except.ok (some r))
    (h2 : env.api.filter_topology r.key = Except.ok ft) :
    get_container_info env n =
      (Except.ok (some ft),
       [ApiCall.getContainerByName n, ApiCall.getContainerByName n,
        ApiCall.filterTopology r.key]) := by
  simp [get_container_info, h, h2]

theorem is_empty_absent (env : Env) (n : String)
    (h : env.api.get_container_by_name n = Except.ok none) :
    is_empty env n = (Except.error PyErr.typeError, [ApiCall.getContainerByName n]) := by
  simp [is_empty, get_container_info_absent env n h]

theorem is_empty_found (env : Env) (n : String) (r ft : ContainerRecord)
    (h : env.api.get_container_by_name n = Except.ok (some r))
    (h2 : env.api.filter_topology r.key = Except.ok ft) :
    is_empty env n =
      (Except.ok (ft.childContainerCount == 0 && ft.childNetElementCount == 0),
       [ApiCall.getContainerByName n, ApiCall.getContainerByName n,
        ApiCall.filterTopology r.key]) := by
  simp [is_empty, get_container_info_found env n r ft h h2]

theorem resolve_configlets_all_ok (env : Env) (cfgs : List String)
    (h : ∀ x ∈ cfgs, ∃ r, env.api.get_configlet_by_name x = Except.ok r) :
    ∃ L, resolve_configlets env cfgs = (Except.ok L, cfgs.map ApiCall.getConfigletByName) := by
  induction cfgs with
  | nil => exact ⟨[], rfl⟩
  | cons c rest ih =>
      obtain ⟨r, hr⟩ := h c (List.mem_cons_self c rest)
      obtain ⟨L, hL⟩ := ih (fun x hx => h x (List.mem_cons_of_mem c hx))
      cases r with
      | none => exact ⟨L, by simp [resolve_configlets, get_configlet_info, hr, hL]⟩
      | some d => exact ⟨d :: L, by simp [resolve_configlets, get_configlet_info, hr, hL]⟩

theorem resolve_configlets_all_unresolved (env : Env) (cfgs : List String)
    (h : ∀ x ∈ cfgs, env.api.get_configlet_by_name x = Except.ok none) :
    resolve_configlets env cfgs = (Except.ok [], cfgs.map ApiCall.getConfigletByName) := by
  induction cfgs with
  | nil => rfl
  | cons c rest ih =>
      have hr := h c (List.mem_cons_self c rest)
      have hrest := ih (fun x hx => h x (List.mem_cons_of_mem c hx))
      simp [resolve_configlets, get_configlet_info, hr, hrest]

theorem name_of_empty_batch (s : String) :
    s ++ ":" ++ String.intercalate ":" ([] : List String) = s ++ ":" := by
  simp [String.intercalate]

theorem lookups_not_mutating (cfgs : List String) :
    (cfgs.map ApiCall.getConfigletByName).all (fun call => !call.isMutating) = true := by
  induction cfgs with
  | nil => rfl
  | cons c rest ih => simp [ApiCall.isMutating, ih]

/-- C1: refuted on the code - on the well-formed topology `topoChain`
(children listed before their parents, as a Python dict may iterate),
`ordered_list_containers` terminates with `["A", "B", "A", "C", "A"]`: the
root container `A` is appended once per pass because the root branch carries
no membership check, and the inflated length ends the loop before `D` is
ever placed.  The result is not a permutation of the topology's keys: it has
duplicates and omits `D`. -/
theorem ordering_not_a_permutation :
    ordered_list_containers topoChain 100 = some ["A", "B", "A", "C", "A"] ∧
    ¬ (["A", "B", "A", "C", "A"] : List String).Nodup ∧
    ("D", ({ parent_container := "C" } : ContainerSpec)) ∈ topoChain.topology ∧
    "D" ∉ ["A", "B", "A", "C", "A"] := by decide

/-- C2: refuted on the code - on `topoDangling`, whose only container has a
dangling parent reference, no pass of the `while` loop makes progress, so
for every fuel bound the loop is still running: the code loops forever
instead of terminating with a dangling-parent error.  On `topoMixed` (a root
container plus a dangling one) the unconditional re-append of the root ends
the loop with the silently truncated list `["A", "A"]` that omits the
dangling container `X`. -/
theorem ordering_dangling_parent_stalls (fuel : Nat) :
    ordered_list_containers topoDangling fuel = none ∧
    ordered_list_containers topoMixed 10 = some ["A", "A"] := by
  constructor
  · induction fuel with
    | zero => rfl
    | succ n ih =>
        have h : order_pass topoDangling [] = [] := rfl
        simp only [ordered_list_containers, ordered_loop] at ih ⊢
        simp only [h]
        simpa using ih
  · decide

/-- C3: refuted on the code - when the registry lookup raises `CvpApiError`,
`is_container_exists` only logs in its `except` clause, leaving `cv_data`
unbound, and the subsequent `if cv_data is not None` raises
`UnboundLocalError` to the caller; and `configlets_detach` on a container
the registry does not know passes `container_info = None` to
`_configlet_del`, which builds its action name from `container['name']` and
raises `TypeError`.  Exceptions therefore do escape the operation
boundary. -/
theorem operations_raise_exceptions :
    (is_container_exists { api := apiRaising, check_mode := false } "DC2").1 =
      Except.error PyErr.unboundLocalError ∧
    (configlets_detach { api := apiAbsent, check_mode := false } "DC2" ["cfgA"]).1 =
      Except.error PyErr.typeError := by decide

/-- C8: `ordered_list_containers` on the empty topology exits its loop
immediately and returns the empty list, for every fuel and root name. -/
theorem ordered_list_containers_empty (fuel : Nat) (root : String) :
    ordered_list_containers { topology := [], root_name := root } fuel = some [] := by
  cases fuel <;> rfl

/-- C9: `has_configlets` is true exactly when `get_configlets` returns a
non-`none` value (an empty configlet list still counts as present), and an
absent container name yields `false` and `none` respectively. -/
theorem has_configlets_iff_get_configlets (t : ContainerInput) (n : String) :
    (has_configlets t n = true ↔ get_configlets t n ≠ none) ∧
    (t.topology.find? (fun p => p.1 == n) = none →
      has_configlets t n = false ∧ get_configlets t n = none) := by
  constructor
  · unfold has_configlets get_configlets get_container_data_configlets
    cases hf : t.topology.find? (fun p => p.1 == n) with
    | none => simp
    | some p => cases hp : p.2.configlets <;> simp [hp]
  · intro h
    unfold has_configlets get_configlets get_container_data_configlets
    rw [h]
    exact ⟨rfl, rfl⟩

/-- Witness for C9: a container with an empty configlet list counts as
having configlets, and an absent name yields the absent answers. -/
theorem has_configlets_iff_get_configlets_witness :
    has_configlets topoCfg "A" = true ∧
    has_configlets topoCfg "Z" = false ∧ get_configlets topoCfg "Z" = none :=
  ⟨(has_configlets_iff_get_configlets topoCfg "A").1.mpr (by decide),
   ((has_configlets_iff_get_configlets topoCfg "Z").2 (by decide)).1,
   ((has_configlets_iff_get_configlets topoCfg "Z").2 (by decide)).2⟩

/-- C10: `is_empty` is only safe when the container exists.  When the remote
lookup finds nothing, `get_container_info` returns `none` and `is_empty`'s
membership test on that `None` raises `TypeError`; at `delete_container`'s
call site the short-circuiting existence check keeps `is_empty` from running
at all (the trace stops at the single lookup) and returns the no-op result.
When the container does exist (and its topology record is available),
`is_empty` returns a boolean. -/
theorem is_empty_requires_existing_container (api : CvpApi) (check : Bool) (n p : String) :
    (api.get_container_by_name n = Except.ok none →
      get_container_info { api := api, check_mode := check } n =
        (Except.ok none, [ApiCall.getContainerByName n]) ∧
      is_empty { api := api, check_mode := check } n =
        (Except.error PyErr.typeError, [ApiCall.getContainerByName n]) ∧
      delete_container { api := api, check_mode := check } n p =
        (Except.ok { name := n }, [ApiCall.getContainerByName n])) ∧
    (∀ r ft, api.get_container_by_name n = Except.ok (some r) →
      api.filter_topology r.key = Except.ok ft →
      is_empty { api := api, check_mode := check } n =
        (Except.ok (ft.childContainerCount == 0 && ft.childNetElementCount == 0),
         [ApiCall.getContainerByName n, ApiCall.getContainerByName n,
          ApiCall.filterTopology r.key])) := by
  constructor
  · intro h
    refine ⟨get_container_info_absent _ n h, is_empty_absent _ n h, ?_⟩
    simp [delete_container, is_container_exists, h]
  · intro r ft h h2
    exact is_empty_found _ n r ft h h2

/-- Witness for C10 at a registry that knows no container. -/
theorem is_empty_requires_existing_container_witness :
    apiAbsent.get_container_by_name "DC9" = Except.ok none ∧
    is_empty { api := apiAbsent, check_mode := false } "DC9" =
      (Except.error PyErr.typeError, [ApiCall.getContainerByName "DC9"]) ∧
    delete_container { api := apiAbsent, check_mode := false } "DC9" "Tenant" =
      (Except.ok { name := "DC9" }, [ApiCall.getContainerByName "DC9"]) :=
  ⟨by decide,
   ((is_empty_requires_existing_container apiAbsent false "DC9" "Tenant").1 (by decide)).2.1,
   ((is_empty_requires_existing_container apiAbsent false "DC9" "Tenant").1 (by decide)).2.2⟩

/-- C6: `delete_container` on a container whose topology record reports
`childNetElementCount = 1` takes the not-empty branch: it returns the
default (success = false) result and its trace holds only the read-only
lookups, no remote delete call, in normal and in check mode alike. -/
theorem delete_container_nonempty_noop (api : CvpApi) (check : Bool) (n p : String)
    (r ft : ContainerRecord)
    (h1 : api.get_container_by_name n = Except.ok (some r))
    (h2 : api.filter_topology r.key = Except.ok ft)
    (h3 : ft.childNetElementCount = 1) :
    delete_container { api := api, check_mode := check } n p =
      (Except.ok { name := n },
       [ApiCall.getContainerByName n, ApiCall.getContainerByName n,
        ApiCall.getContainerByName n, ApiCall.filterTopology r.key]) ∧
    ({ name := n } : CvApiResult).success = false ∧
    ([ApiCall.getContainerByName n, ApiCall.getContainerByName n,
      ApiCall.getContainerByName n, ApiCall.filterTopology r.key].all
        (fun call => !call.isMutating)) = true := by
  refine ⟨?_, rfl, rfl⟩
  have hemp := is_empty_found { api := api, check_mode := check } n r ft h1 h2
  simp [delete_container, is_container_exists, h1, hemp, h3]

/-- Witness for C6: deleting the non-empty `DC2` is a no-op with a read-only
trace, in normal and in check mode. -/
theorem delete_container_nonempty_noop_witness :
    apiNonEmpty.get_container_by_name "DC2" = Except.ok (some recDC2) ∧
    apiNonEmpty.filter_topology recDC2.key = Except.ok ftNonEmpty ∧
    ftNonEmpty.childNetElementCount = 1 ∧
    delete_container { api := apiNonEmpty, check_mode := false } "DC2" "DCs" =
      (Except.ok { name := "DC2" },
       [ApiCall.getContainerByName "DC2", ApiCall.getContainerByName "DC2",
        ApiCall.getContainerByName "DC2", ApiCall.filterTopology "container_dc2"]) ∧
    delete_container { api := apiNonEmpty, check_mode := true } "DC2" "DCs" =
      (Except.ok { name := "DC2" },
       [ApiCall.getContainerByName "DC2", ApiCall.getContainerByName "DC2",
        ApiCall.getContainerByName "DC2", ApiCall.filterTopology "container_dc2"]) :=
  ⟨by decide, by decide, rfl,
   (delete_container_nonempty_noop apiNonEmpty false "DC2" "DCs" recDC2 ftNonEmpty
     (by decide) (by decide) rfl).1,
   (delete_container_nonempty_noop apiNonEmpty true "DC2" "DCs" recDC2 ftNonEmpty
     (by decide) (by decide) rfl).1⟩

/-- C7: when every requested configlet name fails to resolve,
`configlets_attach` drops them all and issues a batched attach of the empty
list (whose success-status response yields success = true), or in check mode
simulates it as success - the unresolved names never surface as a
failure.  The trace shows each name being looked up and the final attach
call carrying the empty batch. -/
theorem configlets_attach_unresolved_empty_batch (api : CvpApi) (d : String)
    (cfgs : List String) (drec dft : ContainerRecord) (ts : List String)
    (hd : api.get_container_by_name d = Except.ok (some drec))
    (hft : api.filter_topology drec.key = Except.ok dft)
    (hcfg : ∀ x ∈ cfgs, api.get_configlet_by_name x = Except.ok none)
    (happly : api.apply_configlets_to_container dft [] =
      Except.ok { data := some { status := "success", taskIds := ts } }) :
    configlets_attach { api := api, check_mode := false } d cfgs =
      (Except.ok { name := dft.name ++ ":", success := true, taskIds := ts },
       [ApiCall.getContainerByName d, ApiCall.getContainerByName d,
        ApiCall.filterTopology drec.key] ++ cfgs.map ApiCall.getConfigletByName ++
        [ApiCall.applyConfiglets dft.name []]) ∧
    (configlets_attach { api := api, check_mode := true } d cfgs).1 =
      Except.ok { name := dft.name ++ ":", success := true, taskIds := ["check_mode"] } := by
  have hres0 := resolve_configlets_all_unresolved { api := api, check_mode := false } cfgs hcfg
  have hres1 := resolve_configlets_all_unresolved { api := api, check_mode := true } cfgs hcfg
  have hinfo0 := get_container_info_found { api := api, check_mode := false } d drec dft hd hft
  have hinfo1 := get_container_info_found { api := api, check_mode := true } d drec dft hd hft
  constructor
  · simp [configlets_attach, hinfo0, hres0, configlet_add, happly, name_of_empty_batch]
  · simp [configlets_attach, hinfo1, hres1, configlet_add, name_of_empty_batch]

/-- Witness for C7: attaching the single unresolvable name `missing` to
`DC3` issues an empty batch reported as success. -/
theorem configlets_attach_unresolved_empty_batch_witness :
    apiStd.get_configlet_by_name "missing" = Except.ok none ∧
    configlets_attach { api := apiStd, check_mode := false } "DC3" ["missing"] =
      (Except.ok { name := "DC3:", success := true, taskIds := ["task2"] },
       [ApiCall.getContainerByName "DC3", ApiCall.getContainerByName "DC3",
        ApiCall.filterTopology "container_dc3"] ++
        [ApiCall.getConfigletByName "missing"] ++
        [ApiCall.applyConfiglets "DC3" []]) :=
  ⟨by decide,
   (configlets_attach_unresolved_empty_batch apiStd "DC3" ["missing"] recDC3 recDC3 ["task2"]
     (by decide) (by decide)
     (by intro x hx; simp at hx; subst hx; decide) (by decide)).1⟩

/-- Counterexample to C5 as stated: at the sample registry (parent `DCs`
exists, `DC2` absent, the create call succeeds) the first
`create_container` call returns success = true with count = 1 but
changed = false - the non-check-mode success branch sets only `success`,
`taskIds` and `count`, never `changed`, so the claimed `changed = true` on
the first call does not hold. -/
theorem create_container_first_call_not_changed :
    (create_container { api := apiStd, check_mode := false } "DC2" "DCs").1 =
      Except.ok
        { name := "DC2", success := true, changed := false, taskIds := ["task1"],
          count := 1 } ∧
    ({ name := "DC2", success := true, changed := false, taskIds := ["task1"],
       count := 1 } : CvApiResult).changed ≠ true := by
  exact ⟨by decide, by decide⟩

/-- C5 (amended): `create_container` is idempotent in effect.  With the
parent existing and the container initially absent (`api1`, the registry
before the first call) the first call issues the create and returns
success = true, count = 1 - but changed = false, since only the check-mode
branch sets the changed flag.  Against the registry as it looks after that
create (`api2`, container now present) the second call is a no-op returning
success = false and changed = false, and its trace holds the read-only
lookups only - no remote create call. -/
theorem create_container_idempotent_noop (api1 api2 : CvpApi) (c p : String)
    (prec crec : ContainerRecord) (ts : List String)
    (h1p : api1.get_container_by_name p = Except.ok (some prec))
    (h1c : api1.get_container_by_name c = Except.ok none)
    (hadd : api1.add_container c prec.key p =
      Except.ok { data := some { status := "success", taskIds := ts } })
    (h2p : api2.get_container_by_name p = Except.ok (some prec))
    (h2c : api2.get_container_by_name c = Except.ok (some crec)) :
    create_container { api := api1, check_mode := false } c p =
      (Except.ok
        { name := c, success := true, changed := false, taskIds := ts, count := 1 },
       [ApiCall.getContainerByName p, ApiCall.getContainerByName p,
        ApiCall.getContainerByName c, ApiCall.addContainer c prec.key p]) ∧
    create_container { api := api2, check_mode := false } c p =
      (Except.ok { name := c },
       [ApiCall.getContainerByName p, ApiCall.getContainerByName p,
        ApiCall.getContainerByName c]) ∧
    ({ name := c } : CvApiResult).success = false ∧
    ({ name := c } : CvApiResult).changed = false ∧
    ([ApiCall.getContainerByName p, ApiCall.getContainerByName p,
      ApiCall.getContainerByName c].all (fun call => !call.isMutating)) = true := by
  refine ⟨?_, ?_, rfl, rfl, rfl⟩
  · simp [create_container, is_container_exists, h1p, h1c, hadd]
  · simp [create_container, is_container_exists, h2p, h2c]

/-- Witness for C5: the two sequential calls at the sample registry. -/
theorem create_container_idempotent_noop_witness :
    apiStd.get_container_by_name "DC2" = Except.ok none ∧
    apiStdAfter.get_container_by_name "DC2" = Except.ok (some recDC2) ∧
    create_container { api := apiStdAfter, check_mode := false } "DC2" "DCs" =
      (Except.ok { name := "DC2" },
       [ApiCall.getContainerByName "DCs", ApiCall.getContainerByName "DCs",
        ApiCall.getContainerByName "DC2"]) :=
  ⟨by decide, by decide,
   (create_container_idempotent_noop apiStd apiStdAfter "DC2" "DCs" recDCs recDC2 ["task1"]
     (by decide) (by decide) (by decide) (by decide) (by decide)).2.1⟩

/-- Counterexample to C4 as stated: in check mode `create_container` does
return the successful simulated result, but its recorded registry traffic is
not empty - the existence checks and the parent-key lookup are still issued
over the network, so "the registry client records zero calls" fails. -/
theorem check_mode_still_issues_lookups :
    (create_container { api := apiStd, check_mode := true } "DC2" "DCs").1 =
      Except.ok { name := "DC2", success := true, changed := true } ∧
    (create_container { api := apiStd, check_mode := true } "DC2" "DCs").2 ≠ [] ∧
    (create_container { api := apiStd, check_mode := true } "DC2" "DCs").2 =
      [ApiCall.getContainerByName "DCs", ApiCall.getContainerByName "DCs",
       ApiCall.getContainerByName "DC2"] := by
  exact ⟨by decide, by decide, by decide⟩

/-- C4 (amended): in check (dry-run) mode every mutating operation reports
success under its local preconditions (`create_container` with existing
parent and absent container returns success = true and changed = true;
`configlets_attach` / `configlets_detach` on an existing container return
success = true with the fake `check_mode` task id), while the recorded
registry traffic consists of read-only lookups only - zero mutating calls
are issued, although lookup calls still are. -/
theorem check_mode_no_mutating_calls (api : CvpApi) (c p d : String) (cfgs : List String)
    (prec drec dft : ContainerRecord)
    (hp : api.get_container_by_name p = Except.ok (some prec))
    (hc : api.get_container_by_name c = Except.ok none)
    (hd : api.get_container_by_name d = Except.ok (some drec))
    (hft : api.filter_topology drec.key = Except.ok dft)
    (hcfg : ∀ x ∈ cfgs, ∃ r, api.get_configlet_by_name x = Except.ok r) :
    create_container { api := api, check_mode := true } c p =
      (Except.ok { name := c, success := true, changed := true },
       [ApiCall.getContainerByName p, ApiCall.getContainerByName p,
        ApiCall.getContainerByName c]) ∧
    (configlets_attach { api := api, check_mode := true } d cfgs).2 =
      [ApiCall.getContainerByName d, ApiCall.getContainerByName d,
       ApiCall.filterTopology drec.key] ++ cfgs.map ApiCall.getConfigletByName ∧
    (∃ r, (configlets_attach { api := api, check_mode := true } d cfgs).1 =
      Except.ok r ∧ r.success = true ∧ r.taskIds = ["check_mode"]) ∧
    (configlets_detach { api := api, check_mode := true } d cfgs).2 =
      [ApiCall.getContainerByName d, ApiCall.getContainerByName d,
       ApiCall.filterTopology drec.key] ++ cfgs.map ApiCall.getConfigletByName ∧
    (∃ r, (configlets_detach { api := api, check_mode := true } d cfgs).1 =
      Except.ok r ∧ r.success = true ∧ r.taskIds = ["check_mode"]) ∧
    (create_container { api := api, check_mode := true } c p).2.all
      (fun call => !call.isMutating) = true ∧
    (configlets_attach { api := api, check_mode := true } d cfgs).2.all
      (fun call => !call.isMutating) = true ∧
    (configlets_detach { api := api, check_mode := true } d cfgs).2.all
      (fun call => !call.isMutating) = true := by
  obtain ⟨L, hL⟩ := resolve_configlets_all_ok { api := api, check_mode := true } cfgs hcfg
  have hinfo := get_container_info_found { api := api, check_mode := true } d drec dft hd hft
  have hcreate : create_container { api := api, check_mode := true } c p =
      (Except.ok { name := c, success := true, changed := true },
       [ApiCall.getContainerByName p, ApiCall.getContainerByName p,
        ApiCall.getContainerByName c]) := by
    simp [create_container, is_container_exists, hp, hc]
  have hatt : configlets_attach { api := api, check_mode := true } d cfgs =
      (Except.ok
        { name := dft.name ++ ":" ++ String.intercalate ":"
            ((L.filter (fun entry => entry.name != "")).map (fun entry => entry.name)),
          success := true, taskIds := ["check_mode"] },
       [ApiCall.getContainerByName d, ApiCall.getContainerByName d,
        ApiCall.filterTopology drec.key] ++ cfgs.map ApiCall.getConfigletByName) := by
    simp [configlets_attach, hinfo, hL, configlet_add]
  have hdet : configlets_detach { api := api, check_mode := true } d cfgs =
      (Except.ok
        { name := dft.name ++ ":" ++ String.intercalate ":"
            ((L.filter (fun entry => entry.name != "")).map (fun entry => entry.name)),
          success := true, taskIds := ["check_mode"] },
       [ApiCall.getContainerByName d, ApiCall.getContainerByName d,
        ApiCall.filterTopology drec.key] ++ cfgs.map ApiCall.getConfigletByName) := by
    simp [configlets_detach, hinfo, hL, configlet_del]
  refine ⟨hcreate, ?_, ?_, ?_, ?_, ?_, ?_, ?_⟩
  · rw [hatt]
  · rw [hatt]; exact ⟨_, rfl, rfl, rfl⟩
  · rw [hdet]
  · rw [hdet]; exact ⟨_, rfl, rfl, rfl⟩
  · rw [hcreate]; rfl
  · rw [hatt]; simp [ApiCall.isMutating, lookups_not_mutating]
  · rw [hdet]; simp [ApiCall.isMutating, lookups_not_mutating]

/-- Witness for C4 at the sample registry in check mode. -/
theorem check_mode_no_mutating_calls_witness :
    apiStd.get_container_by_name "DC2" = Except.ok none ∧
    create_container { api := apiStd, check_mode := true } "DC2" "DCs" =
      (Except.ok { name := "DC2", success := true, changed := true },
       [ApiCall.getContainerByName "DCs", ApiCall.getContainerByName "DCs",
        ApiCall.getContainerByName "DC2"]) ∧
    (configlets_attach { api := apiStd, check_mode := true } "DC3" ["cfgA"]).2 =
      [ApiCall.getContainerByName "DC3", ApiCall.getContainerByName "DC3",
       ApiCall.filterTopology "container_dc3", ApiCall.getConfigletByName "cfgA"] :=
  ⟨by decide,
   (check_mode_no_mutating_calls apiStd "DC2" "DCs" "DC3" ["cfgA"] recDCs recDC3 recDC3
     (by decide) (by decide) (by decide) (by decide)
     (by intro x hx; simp at hx; subst hx; exact ⟨some cfgA, by decide⟩)).1,
   by
    have h := (check_mode_no_mutating_calls apiStd "DC2" "DCs" "DC3" ["cfgA"] recDCs recDC3
      recDC3 (by decide) (by decide) (by decide) (by decide)
      (by intro x hx; simp at hx; subst hx; exact ⟨some cfgA, by decide⟩)).2.1
    simpa using h⟩

end CvCt
